import Mathlib

/-!
Shallow embedding of `hatchet/external/console.py` (class `ConsoleRenderer`).

Modelling conventions:
* Python floats are modelled by `F`: an exact rational, or one of the
  non-finite values `nan`, `inf`, `ninf`.  Comparisons and arithmetic follow
  IEEE semantics (`nan` compares false, propagates through arithmetic).
* Python cell values (`dataframe.loc[...]`) are modelled by `PyVal`.
* Exceptions (`KeyError`, `ValueError`, `TypeError`, `AttributeError`,
  `UnboundLocalError`) are modelled with `Except String`; a raised exception
  discards all partial output, exactly as in the source.
* The optional `rank`/`thread` index dimensions of the dataframe are not
  modelled: the table is addressed by node id alone, i.e. we model the
  single-index case (`df_index = node` branch of `render_frame`).
* Python string slicing is by characters; we model strings through their
  character lists.
* The recursion of `render_frame` is given explicit fuel.  In the source the
  recursion terminates because each node's children are expanded at most once
  (the visited list); any fuel larger than the number of recursive calls
  reproduces the source behaviour exactly.
-/

set_option maxRecDepth 100000

namespace Hatchet

/-! Computable rational arithmetic.  Mathlib's `Rat` operations are
`@[irreducible]`, which would block kernel evaluation of concrete renders;
the wrappers below compute through `mkRat`/`Rat.divInt` and are proved
equal to the standard operations, so general theorems can still reason
with ordinary `ℚ` algebra. -/

/-- Computable negation on `ℚ`. -/
def qNeg (a : ℚ) : ℚ := Rat.neg a

/-- Computable addition on `ℚ`. -/
def qAdd (a b : ℚ) : ℚ := mkRat (a.num * b.den + b.num * a.den) (a.den * b.den)

/-- Computable subtraction on `ℚ`. -/
def qSub (a b : ℚ) : ℚ := mkRat (a.num * b.den - b.num * a.den) (a.den * b.den)

/-- Computable multiplication on `ℚ`. -/
def qMul (a b : ℚ) : ℚ := mkRat (a.num * b.num) (a.den * b.den)

/-- Computable division on `ℚ`. -/
def qDiv (a b : ℚ) : ℚ := Rat.divInt (a.num * b.den) (a.den * b.num)

/-- Computable absolute value on `ℚ`. -/
def qAbs (a : ℚ) : ℚ := if a < 0 then qNeg a else a

/-- Computable minimum on `ℚ`. -/
def qMin (a b : ℚ) : ℚ := if a ≤ b then a else b

/-- Computable maximum on `ℚ`. -/
def qMax (a b : ℚ) : ℚ := if a ≤ b then b else a

theorem qNeg_eq (a : ℚ) : qNeg a = -a := rfl

theorem qAdd_eq (a b : ℚ) : qAdd a b = a + b := (Rat.add_def' a b).symm

theorem qSub_eq (a b : ℚ) : qSub a b = a - b := (Rat.sub_def' a b).symm

theorem qMul_eq (a b : ℚ) : qMul a b = a * b := by
  rw [qMul, Rat.mul_def, Rat.normalize_eq_mkRat]

theorem qDiv_eq (a b : ℚ) : qDiv a b = a / b := by
  conv_rhs => rw [Rat.div_def, Rat.inv_def, ← Rat.num_divInt_den a]
  rw [Rat.divInt_mul_divInt']
  rfl

theorem qAbs_eq (a : ℚ) : qAbs a = |a| := by
  rcases lt_or_le a 0 with h | h
  · rw [qAbs, if_pos h, qNeg_eq, abs_of_neg h]
  · rw [qAbs, if_neg (not_lt.mpr h), abs_of_nonneg h]

theorem qMin_eq (a b : ℚ) : qMin a b = min a b := (min_def a b).symm

theorem qMax_eq (a b : ℚ) : qMax a b = max a b := (max_def a b).symm

instance {ε α : Type} [DecidableEq ε] [DecidableEq α] :
    DecidableEq (Except ε α) := fun x y =>
  match x, y with
  | .error a, .error b =>
    if h : a = b then .isTrue (by rw [h])
    else .isFalse (by intro hc; cases hc; exact h rfl)
  | .error _, .ok _ => .isFalse (by intro hc; cases hc)
  | .ok _, .error _ => .isFalse (by intro hc; cases hc)
  | .ok a, .ok b =>
    if h : a = b then .isTrue (by rw [h])
    else .isFalse (by intro hc; cases hc; exact h rfl)

/-- Python float: finite rational or non-finite value. -/
inductive F
  | fin (q : ℚ)
  | nan
  | inf
  | ninf
deriving DecidableEq, Repr

namespace F

/-- Subtraction with IEEE semantics (used for `max - min`, `metric - min`). -/
def sub : F → F → F
  | fin a, fin b => fin (qSub a b)
  | fin _, inf => ninf
  | fin _, ninf => inf
  | inf, fin _ => inf
  | ninf, fin _ => ninf
  | inf, ninf => inf
  | ninf, inf => ninf
  | inf, inf => nan
  | ninf, ninf => nan
  | nan, _ => nan
  | _, nan => nan

/-- Addition with IEEE semantics (used in the legend labels). -/
def add : F → F → F
  | fin a, fin b => fin (qAdd a b)
  | fin _, inf => inf
  | fin _, ninf => ninf
  | inf, fin _ => inf
  | ninf, fin _ => ninf
  | inf, inf => inf
  | ninf, ninf => ninf
  | inf, ninf => nan
  | ninf, inf => nan
  | nan, _ => nan
  | _, nan => nan

/-- Multiplication with IEEE semantics (used in the legend labels). -/
def mul : F → F → F
  | fin a, fin b => fin (qMul a b)
  | fin a, inf => if a > 0 then inf else if a < 0 then ninf else nan
  | fin a, ninf => if a > 0 then ninf else if a < 0 then inf else nan
  | inf, fin b => if b > 0 then inf else if b < 0 then ninf else nan
  | ninf, fin b => if b > 0 then ninf else if b < 0 then inf else nan
  | inf, inf => inf
  | ninf, ninf => inf
  | inf, ninf => ninf
  | ninf, inf => ninf
  | nan, _ => nan
  | _, nan => nan

/-- Division with IEEE semantics (used for the normalized proportion). -/
def div : F → F → F
  | fin a, fin b => if b = 0 then nan else fin (qDiv a b)
  | fin _, inf => fin 0
  | fin _, ninf => fin 0
  | inf, fin b => if b > 0 then inf else if b < 0 then ninf else nan
  | ninf, fin b => if b > 0 then ninf else if b < 0 then inf else nan
  | nan, _ => nan
  | _, nan => nan
  | _, _ => nan

/-- Python `x != 0` on a float (`nan != 0` is `True`). -/
def neZero : F → Bool
  | fin q => decide (q ≠ 0)
  | _ => true

/-- Python `x > q` against a finite literal (`nan` compares false). -/
def gtQ : F → ℚ → Bool
  | fin a, q => decide (a > q)
  | inf, _ => true
  | _, _ => false

/-- Python `x >= q` against a finite literal (`nan` compares false). -/
def geQ : F → ℚ → Bool
  | fin a, q => decide (a ≥ q)
  | inf, _ => true
  | _, _ => false

end F

/-- A dataframe cell value (Python primitive). -/
inductive PyVal
  | num (q : ℚ)
  | intv (z : ℤ)
  | nanv
  | infv
  | ninfv
  | pstr (s : String)
deriving DecidableEq, Repr

/-- Numeric view of a cell, for metric formatting; `Option.none` for a
string cell (Python raises on formatting a string with a float spec). -/
def PyVal.toF? : PyVal → Option F
  | .num q => some (.fin q)
  | .intv z => some (.fin z)
  | .nanv => some .nan
  | .infv => some .inf
  | .ninfv => some .ninf
  | .pstr _ => Option.none

/-- Finite numeric view, mirroring `np.isfinite` filtering of the metric
series: only finite numbers survive. -/
def PyVal.finiteQ? : PyVal → Option ℚ
  | .num q => some q
  | .intv z => some (z : ℚ)
  | _ => Option.none

/-- Python `v == z` for an integer literal: numbers compare by value,
non-numbers (and `nan`) compare false. -/
def PyVal.eqInt : PyVal → ℤ → Bool
  | .num q, z => decide (q = (z : ℚ))
  | .intv a, z => decide (a = z)
  | _, _ => false

/-- Python `v != "none"`: a string cell compares by content, any other cell
is unequal to a string. -/
def PyVal.neStrNone : PyVal → Bool
  | .pstr s => decide (s ≠ "none")
  | _ => true

/-! String helpers.  Python indexes strings by characters, so everything is
phrased over the character list of a `String`. -/

/-- Build a string from a character list. -/
def strOfChars (l : List Char) : String := String.mk l

/-- Python `len` on a string (character count). -/
def pyLen (s : String) : ℕ := s.toList.length

/-- Python slice `s[:n]`. -/
def pyTake (s : String) (n : ℕ) : String := strOfChars (s.toList.take n)

/-- Python slice `s[n:]`. -/
def pyDrop (s : String) (n : ℕ) : String := strOfChars (s.toList.drop n)

/-- Python `pat in s` (substring containment). -/
def containsSubstr (pat s : String) : Bool :=
  (List.range (s.toList.length + 1)).any
    (fun i => pat.toList.isPrefixOf (s.toList.drop i))

/-- Number of positions of `s` at which `pat` occurs (used to count how often
a node's line appears in the rendered output). -/
def countOccur (pat s : String) : ℕ :=
  ((List.range (s.toList.length + 1)).filter
    (fun i => pat.toList.isPrefixOf (s.toList.drop i))).length

/-! Fixed-point number formatting, mirroring Python's `"{:.Nf}".format`. -/

/-- Round a non-negative rational to the nearest integer, ties to even
(the rounding of Python's `format`). -/
def roundHalfEven (m : ℚ) : ℕ :=
  let fl := m.floor.toNat
  let fr := qSub m (m.floor : ℚ)
  if fr < mkRat 1 2 then fl
  else if fr > mkRat 1 2 then fl + 1
  else if fl % 2 = 0 then fl else fl + 1

/-- Left-pad a numeral string with zeros to width `w`. -/
def padZeros (s : String) (w : ℕ) : String :=
  strOfChars (List.replicate (w - s.toList.length) '0') ++ s

/-- `"{:.pf}".format(q)` for a finite value `q`. -/
def qToFixed (p : ℕ) (q : ℚ) : String :=
  let n := roundHalfEven (qMul (qAbs q) ((10 ^ p : ℕ) : ℚ))
  let sign := if q < 0 then "-" else ""
  if p = 0 then sign ++ toString (n : ℤ)
  else sign ++ toString ((n / 10 ^ p : ℕ) : ℤ) ++ "." ++
    padZeros (toString ((n % 10 ^ p : ℕ) : ℤ)) p

/-- `"{:.pf}".format(x)` for a Python float. -/
def formatFix (p : ℕ) : F → String
  | .fin q => qToFixed p q
  | .nan => "nan"
  | .inf => "inf"
  | .ninf => "-inf"

/-- Python `str()` of a float value.  Python prints the shortest decimal that
round-trips; we model the cases needed here (integral values and exact
tenths), falling back to a fraction print for other rationals.  No claim
depends on the fallback. -/
def pyStrQ (q : ℚ) : String :=
  let sign := if q < 0 then "-" else ""
  let a := qAbs q
  if a.den = 1 then sign ++ toString a.num ++ ".0"
  else if (qMul a 10).den = 1 then
    sign ++ toString ((qMul a 10).num / 10) ++ "." ++ toString ((qMul a 10).num % 10)
  else sign ++ toString a.num ++ "/" ++ toString a.den

/-- Python `str()` of a cell value. -/
def pyStr : PyVal → String
  | .num q => pyStrQ q
  | .intv z => toString z
  | .nanv => "nan"
  | .infv => "inf"
  | .ninfv => "-inf"
  | .pstr s => s

/-- A graph node: stable numeric id (`_hatchet_nid`) and stored depth
(`_depth`).  Children are supplied separately as a function from node id,
so that shared children (DAG) are expressed naturally. -/
structure Node where
  nid : ℕ
  depth : ℕ
deriving DecidableEq, Repr

/-- The metric table: column names, the row keys (node ids) in row order,
and the cell contents.  `cell` is total; rows outside `rows` are irrelevant
to every claim. -/
structure DataFrame where
  columns : List String
  rows : List ℕ
  cell : ℕ → String → PyVal

/-- A resolved color scheme (the `colors_enabled` / `colors_disabled`
classes).  `endc` stands for the source's `end` attribute. -/
structure Colors where
  colormap : List String
  blue : String
  cyan : String
  bg_white_255 : String
  dark_gray_255 : String
  left : String
  right : String
  faint : String
  endc : String
deriving DecidableEq, Repr

/-- The `colors_enabled` scheme with colormap set from user input
(`ColorMaps().get_colors` is an external collaborator, so the palette
arrives already resolved). -/
def colorsEnabled (cmap : List String) : Colors :=
  { colormap := cmap
    blue := "\x1b[34m"
    cyan := "\x1b[36m"
    bg_white_255 := "\x1b[48;5;246m"
    dark_gray_255 := "\x1b[38;5;232m"
    left := "\x1b[38;5;160m"
    right := "\x1b[38;5;28m"
    faint := "\x1b[2m"
    endc := "\x1b[0m" }

/-- The `colors_disabled` scheme: every accent is the empty string and the
colormap is seven empty strings. -/
def colorsDisabled : Colors :=
  { colormap := ["", "", "", "", "", "", ""]
    blue := "", cyan := "", bg_white_255 := "", dark_gray_255 := ""
    left := "", right := "", faint := "", endc := "" }

/-- The `metric_column` keyword: a single column name or a list. -/
inductive MetricCols
  | single (s : String)
  | multi (l : List String)
deriving DecidableEq, Repr

/-- The `colormap_annotations` keyword.  A palette name is resolved by the
external `ColorMaps` collaborator, so both the string and the list form
arrive as an ordered color list; a dict maps values to colors directly. -/
inductive AnnotCmap
  | byPalette (l : List String)
  | byDict (d : List (String × String))
deriving DecidableEq, Repr

/-- Python truthiness of the `colormap_annotations` keyword. -/
def annotCmapTruthy : Option AnnotCmap → Bool
  | Option.none => false
  | some (.byPalette l) => decide (l ≠ [])
  | some (.byDict d) => decide (d ≠ [])

/-- Python truthiness of the `annotation_column` keyword. -/
def optStrTruthy : Option String → Bool
  | Option.none => false
  | some s => decide (s ≠ "")

/-- The keyword arguments of `render` together with the constructor flags
`unicode` and `color`.  `colormap` is the main palette, pre-resolved by the
external `ColorMaps` collaborator. -/
structure Config where
  renderHeader : Bool
  metricColumn : MetricCols
  annotColumn : Option String
  precision : ℕ
  nameColumn : String
  expandName : Bool
  contextColumn : String
  rank : ℕ
  thread : ℕ
  depth : ℕ
  highlightName : Bool
  colormap : List String
  invertColormap : Bool
  colormapAnnot : Option AnnotCmap
  minValue : Option ℚ
  maxValue : Option ℚ
  unicode : Bool
  color : Bool

/-- The color mapping for annotation values
(`colors_annotations_mapping`): the sorted unique strings of the column for
a palette, or the user dict itself. -/
inductive AnnotMapping
  | byList (l : List String)
  | byDict (d : List (String × String))
deriving DecidableEq, Repr

/-- Everything `render` resolves once per call and `render_frame` then
reads from `self`. -/
structure Ctx where
  df : DataFrame
  children : ℕ → List Node
  primary : String
  second : Option String
  precision : ℕ
  nameCol : String
  expand : Bool
  contextCol : String
  depth : ℕ
  highlight : Bool
  annotCol : Option String
  cmapAnnot : Option AnnotCmap
  colors : Colors
  colorsAnnot : Option Colors
  annotMapping : Option AnnotMapping
  minMetric : F
  maxMetric : F
  lrArrows : String × String
  unicode : Bool

/-- `_ansi_color_for_metric`: normalize the metric against the resolved
bounds and pick a palette entry by fixed thresholds; negative proportion
falls through to the `blue` accent.  The source indexes
`self.colors.colormap[i]`; every palette in use carries at least six
entries, so `getD` with a default is behaviourally identical. -/
def ansiColorForMetric (ctx : Ctx) (metric : F) : String :=
  let metricRange := F.sub ctx.maxMetric ctx.minMetric
  let proportion :=
    if F.neZero metricRange then F.div (F.sub metric ctx.minMetric) metricRange
    else F.div metric (F.fin 1)
  if F.gtQ proportion (mkRat 9 10) then ctx.colors.colormap.getD 0 ""
  else if F.gtQ proportion (mkRat 7 10) then ctx.colors.colormap.getD 1 ""
  else if F.gtQ proportion (mkRat 1 2) then ctx.colors.colormap.getD 2 ""
  else if F.gtQ proportion (mkRat 3 10) then ctx.colors.colormap.getD 3 ""
  else if F.gtQ proportion (mkRat 1 10) then ctx.colors.colormap.getD 4 ""
  else if F.geQ proportion 0 then ctx.colors.colormap.getD 5 ""
  else ctx.colors.blue

/-- `_ansi_color_for_name`. -/
def ansiColorForName (ctx : Ctx) (nodeName : String) : String :=
  if ctx.highlight = false then ""
  else if containsSubstr "<unknown procedure>" nodeName ||
          containsSubstr "<unknown file>" nodeName then ""
  else ctx.colors.bg_white_255 ++ ctx.colors.dark_gray_255

/-- Name collapsing of `render_frame` (source lines 331-335): with
name-expansion disabled, a name longer than 39 characters becomes its first
18 characters, `"..."`, and its final 18 characters. -/
def truncName (expand : Bool) (s : String) : String :=
  if expand = false then
    if pyLen s > 39 then pyTake s 18 ++ "..." ++ pyDrop s (pyLen s - 18)
    else s
  else s

/-- The diff-marker decorator (source lines 341-352).  `Option.none` models
the `lr_decorator` local never being assigned, which the source then hits
as an `UnboundLocalError`. -/
def lrDecorator (ctx : Ctx) (v : PyVal) : Option String :=
  if v.eqInt 0 then some ""
  else if v.eqInt 1 then
    some (" " ++ ctx.colors.left ++ ctx.lrArrows.1 ++ ctx.colors.endc)
  else if v.eqInt 2 then
    some (" " ++ ctx.colors.right ++ ctx.lrArrows.2 ++ ctx.colors.endc)
  else Option.none

/-- The fixed temporal-pattern symbol table of `render_frame`. -/
def temporalSymbols : List (String × String) :=
  [("none", ""), ("constant", "→"), ("phased", "⤳"),
   ("dynamic", "⇝"), ("sporadic", "↝")]

/-- Python `self.temporal_symbols[pattern_metric]`: a dict lookup keyed by
the raw cell value; any value outside the table (including a non-string)
raises `KeyError`. -/
def temporalLookup (v : PyVal) : Option String :=
  match v with
  | .pstr s => (temporalSymbols.find? (fun kv => kv.1 == s)).map Prod.snd
  | _ => Option.none

/-- Unique `str()` images of a column in first-appearance order
(`dataframe[col].apply(str).unique()`). -/
def uniqueStrs (df : DataFrame) (col : String) : List String :=
  df.rows.foldl
    (fun acc r =>
      let s := pyStr (df.cell r col)
      if s ∈ acc then acc else acc ++ [s]) []

/-- `self.colors_annotations`, raising `AttributeError` when it was never
assigned (color disabled). -/
def getColorsAnnot (ctx : Ctx) : Except String Colors :=
  match ctx.colorsAnnot with
  | some c => Except.ok c
  | Option.none => Except.error "AttributeError: colors_annotations"

/-- The annotation overlay (source lines 280-328), appending to
`metric_str`. -/
def annotPart (ctx : Ctx) (node : Node) (ac : String) (metricStr : String) :
    Except String String := do
  let raw := ctx.df.cell node.nid ac
  let annotContent := pyStr raw
  if containsSubstr "_pattern" ac then
    -- temporal-pattern mode: dict lookup by the raw value
    let sym ←
      match temporalLookup raw with
      | some s => Except.ok s
      | Option.none => Except.error ("KeyError: " ++ pyStr raw)
    if annotCmapTruthy ctx.cmapAnnot then
      -- mapping recomputed from the whole column, appearance order
      let mapping := uniqueStrs ctx.df ac
      if raw.neStrNone then
        let ca ← getColorsAnnot ctx
        let i ←
          match mapping.indexOf? annotContent with
          | some i => Except.ok i
          | Option.none => Except.error "ValueError: value not in mapping"
        let color := ca.colormap.getD (i % ca.colormap.length) ""
        Except.ok (metricStr ++ " " ++ color ++ sym ++ ca.endc)
      else
        Except.ok (metricStr ++ sym)
    else
      Except.ok (metricStr ++ " " ++ sym)
  else
    if annotCmapTruthy ctx.cmapAnnot then
      let mp ←
        match ctx.annotMapping with
        | some m => Except.ok m
        | Option.none => Except.error "AttributeError: colors_annotations_mapping"
      let ca ← getColorsAnnot ctx
      let color ←
        match mp with
        | .byDict d =>
          match d.find? (fun kv => kv.1 == annotContent) with
          | some kv => Except.ok kv.2
          | Option.none => Except.error ("KeyError: " ++ annotContent)
        | .byList l =>
          match l.indexOf? annotContent with
          | some i => Except.ok (ca.colormap.getD (i % ca.colormap.length) "")
          | Option.none => Except.error "ValueError: value not in mapping"
      Except.ok (metricStr ++ " [" ++ color ++ annotContent ++ ca.endc ++ "]")
    else
      Except.ok (metricStr ++ " [" ++ annotContent ++ "]")

/-- Numeric view of a metric cell; a string cell makes the float format
specifier raise. -/
def toFErr (v : PyVal) : Except String F :=
  match v.toF? with
  | some f => Except.ok f
  | Option.none => Except.error "TypeError: metric cell is not numeric"

/-- The straight-line part of `render_frame` (source lines 255-364): compose
one output line for `node`. -/
def composeLine (ctx : Ctx) (node : Node) (indent : String) :
    Except String String := do
  let nodeMetric ← toFErr (ctx.df.cell node.nid ctx.primary)
  let metricStr :=
    ansiColorForMetric ctx nodeMetric ++ formatFix ctx.precision nodeMetric ++
      ctx.colors.endc
  let metricStr ←
    match ctx.second with
    | Option.none => Except.ok metricStr
    | some sc => do
      let m2 ← toFErr (ctx.df.cell node.nid sc)
      Except.ok (metricStr ++ " " ++ ctx.colors.faint ++
        formatFix ctx.precision m2 ++ ctx.colors.endc)
  let metricStr ←
    match ctx.annotCol with
    | Option.none => Except.ok metricStr
    | some ac => annotPart ctx node ac metricStr
  let nodeName ←
    match ctx.df.cell node.nid ctx.nameCol with
    | .pstr s => Except.ok s
    | _ => Except.error "TypeError: name cell is not a string"
  let nodeName := truncName ctx.expand nodeName
  let nameStr := ansiColorForName ctx nodeName ++ nodeName ++ ctx.colors.endc
  let base := indent ++ metricStr ++ " " ++ nameStr
  let base ←
    if "_missing_node" ∈ ctx.df.columns then
      match lrDecorator ctx (ctx.df.cell node.nid "_missing_node") with
      | some d => Except.ok (base ++ d)
      | Option.none => Except.error "UnboundLocalError: lr_decorator"
    else Except.ok base
  if ctx.contextCol ∈ ctx.df.columns then
    Except.ok (base ++ " " ++ ctx.colors.faint ++
      pyStr (ctx.df.cell node.nid ctx.contextCol) ++ ctx.colors.endc ++ "\n")
  else
    Except.ok (base ++ "\n")

/-- The branch-drawing glyph table, selected by the unicode flag. -/
structure IndentGlyphs where
  branch : String
  vert : String
  lastB : String
  blank : String
deriving DecidableEq, Repr

/-- Source lines 366-369. -/
def indentGlyphs (unicode : Bool) : IndentGlyphs :=
  if unicode then
    { branch := "├─ ", vert := "│  ", lastB := "└─ ", blank := "   " }
  else
    { branch := "|- ", vert := "|  ", lastB := "`- ", blank := "   " }

/-- Stable insertion into a list sorted by node id. -/
def insertByNid (n : Node) : List Node → List Node
  | [] => [n]
  | m :: ms => if n.nid < m.nid then n :: m :: ms else m :: insertByNid n ms

/-- `sorted(nodes, key=lambda n: n._hatchet_nid)`. -/
def sortByNid (l : List Node) : List Node := l.foldr insertByNid []

mutual

/-- `render_frame` (source lines 250-393).  The node's own line is composed
and emitted whenever its stored depth is below the cutoff; only the
expansion into children is guarded by the visited list.  Fuel strictly
decreases on every recursive call; any fuel larger than the number of
recursive calls of the source reproduces its behaviour exactly. -/
def renderFrame (ctx : Ctx) (fuel : ℕ) (node : Node) (visited : List ℕ)
    (indent childIndent : String) : Except String (String × List ℕ) :=
  match fuel with
  | 0 => Except.error "fuel exhausted"
  | n + 1 =>
    if node.depth < ctx.depth then
      match composeLine ctx node indent with
      | Except.error e => Except.error e
      | Except.ok line =>
        if node.nid ∈ visited then Except.ok (line, visited)
        else
          match renderKids ctx n (sortByNid (ctx.children node.nid))
              childIndent (visited ++ [node.nid]) with
          | Except.error e => Except.error e
          | Except.ok (rest, vis) => Except.ok (line ++ rest, vis)
    else Except.ok ("", visited)

/-- The child loop of `render_frame` (source lines 376-388): the last child
gets the last-branch/blank glyph pair, every other child branch/vertical. -/
def renderKids (ctx : Ctx) (fuel : ℕ) (cs : List Node) (childIndent : String)
    (visited : List ℕ) : Except String (String × List ℕ) :=
  match fuel, cs with
  | _, [] => Except.ok ("", visited)
  | 0, _ :: _ => Except.error "fuel exhausted"
  | n + 1, c :: rest =>
    let g := indentGlyphs ctx.unicode
    let ci := childIndent ++ (if rest.isEmpty then g.lastB else g.branch)
    let cci := childIndent ++ (if rest.isEmpty then g.blank else g.vert)
    match renderFrame ctx n c visited ci cci with
    | Except.error e => Except.error e
    | Except.ok (s, vis) =>
      match renderKids ctx n rest childIndent vis with
      | Except.error e => Except.error e
      | Except.ok (s2, vis2) => Except.ok (s ++ s2, vis2)

end

/-- The version string stamped into the preamble.  It comes from the
external `..version` module; its value is immaterial to every claim. -/
def versionText : String := "1.4.0"

/-- `render_preamble` (source lines 164-175): the ASCII-art banner followed
by the version, joined with newlines.  The `"{:>2}"` right-align is the
identity on the long version string. -/
def renderPreamble : String :=
  String.intercalate "\n"
    ["    __          __       __         __ ",
     "   / /_  ____ _/ /______/ /_  ___  / /_",
     "  / __ \\/ __ `/ __/ ___/ __ \\/ _ \\/ __/",
     " / / / / /_/ / /_/ /__/ / / /  __/ /_  ",
     "/_/ /_/\\__,_/\\__/\\___/_/ /_/\\___/\\__/  " ++ "v" ++ versionText,
     "",
     ""]

/-- `render_label` inside `render_legend` (source lines 178-189): one
legend band, mapping a proportion range back to metric-domain values. -/
def renderLabel (ctx : Ctx) (index : ℕ) (low high : ℚ) : String :=
  let metricRange := F.sub ctx.maxMetric ctx.minMetric
  ctx.colors.colormap.getD index "" ++ "█ " ++ ctx.colors.endc ++
    formatFix 2 (F.add (F.mul (F.fin low) metricRange) ctx.minMetric) ++
    " - " ++
    formatFix 2 (F.add (F.mul (F.fin high) metricRange) ctx.minMetric) ++
    "\n"

/-- The legend header line (source lines 191-201). -/
def legendTitle (ctx : Ctx) : String :=
  "\n" ++ "\x1b[4m" ++ "Legend" ++ ctx.colors.endc ++ " (Metric: " ++
    ctx.primary ++ " Min: " ++ formatFix 2 ctx.minMetric ++
    " Max: " ++ formatFix 2 ctx.maxMetric ++ ")\n"

/-- The six bucket bands of the legend (source lines 203-208), in source
order. -/
def legendBands (ctx : Ctx) : String :=
  renderLabel ctx 0 (mkRat 9 10) 1 ++
  renderLabel ctx 1 (mkRat 7 10) (mkRat 9 10) ++
  renderLabel ctx 2 (mkRat 1 2) (mkRat 7 10) ++
  renderLabel ctx 3 (mkRat 3 10) (mkRat 1 2) ++
  renderLabel ctx 4 (mkRat 1 10) (mkRat 3 10) ++
  renderLabel ctx 5 0 (mkRat 1 10)

/-- The fixed temporal score boundaries of the legend. -/
def scoreRanges : List ℚ := [0, mkRat 1 5, mkRat 2 5, mkRat 3 5, 1]

/-- The temporal-pattern sub-legend (source lines 218-247).  The palette
for the score bands comes from the external `ColorMaps` collaborator; in
our model `colormap_annotations` already carries the resolved palette. -/
def legendAnnot (ctx : Ctx) : String :=
  match ctx.annotCol with
  | Option.none => ""
  | some ac =>
    if containsSubstr "_pattern" ac then
      let syms := temporalSymbols.foldl
        (fun acc kv =>
          if containsSubstr "none" kv.1 then acc
          else acc ++ "   " ++ kv.2 ++ " " ++ kv.1) ""
      let bands :=
        match ctx.cmapAnnot, ctx.colorsAnnot with
        | some (.byPalette pal), some ca =>
          -- `legend_color_mapping.index(score_ranges[i+1])` over the sorted
          -- boundary list is just `i+1`
          (List.range 4).foldl
            (fun acc i =>
              acc ++ pal.getD ((i + 1) % pal.length) "" ++
                "   " ++ pyStrQ (scoreRanges.getD i 0) ++ " - " ++
                pyStrQ (scoreRanges.getD (i + 1) 0) ++ ca.endc) ""
        | _, _ =>
          (List.range 4).foldl
            (fun acc i =>
              acc ++ "   " ++ pyStrQ (scoreRanges.getD i 0) ++ " - " ++
                pyStrQ (scoreRanges.getD (i + 1) 0)) ""
      "\nTemporal Pattern" ++ syms ++ "\nTemporal Score  " ++ bands
    else ""

/-- The key line and annotation trailer of the legend
(source lines 210-247). -/
def legendTail (ctx : Ctx) : String :=
  "\n" ++ ansiColorForName ctx "name" ++ "name" ++ ctx.colors.endc ++
    " User code    " ++
    ctx.colors.left ++ ctx.lrArrows.1 ++ ctx.colors.endc ++
    " Only in left graph    " ++
    ctx.colors.right ++ ctx.lrArrows.2 ++ ctx.colors.endc ++
    " Only in right graph\n" ++
    legendAnnot ctx

/-- `render_legend` (source lines 177-248). -/
def renderLegend (ctx : Ctx) : String :=
  legendTitle ctx ++ legendBands ctx ++ legendTail ctx

/-- Metric resolution from the `metric_column` keyword (source lines
98-114).  `Option.none` models `self.primary_metric` never being assigned
(empty list), which the source then hits as an `AttributeError`. -/
def resolveMetrics : MetricCols → Option (String × Option String)
  | .single s => some (s, Option.none)
  | .multi [] => Option.none
  | .multi [a] => some (a, Option.none)
  | .multi (a :: b :: _) => some (a, some b)

/-- The `KeyError` message for a missing metric column (source lines
117-121 and 126-130). -/
def keyErrMsg (c : String) : String :=
  "metric_column=" ++ c ++
    " does not exist in the dataframe, please select a valid column. See a list of the available metrics with GraphFrame.show_metric_columns()."

/-- The finite values of a column in row order (`np.isfinite` filtering,
source lines 139-142). -/
def finiteVals (df : DataFrame) (col : String) : List ℚ :=
  df.rows.filterMap (fun r => (df.cell r col).finiteQ?)

/-- `filtered_series.min()`: `nan` on an empty series. -/
def dataMin (l : List ℚ) : F :=
  match l with
  | [] => F.nan
  | x :: xs => F.fin (xs.foldl qMin x)

/-- `filtered_series.max()`: `nan` on an empty series. -/
def dataMax (l : List ℚ) : F :=
  match l with
  | [] => F.nan
  | x :: xs => F.fin (xs.foldl qMax x)

/-- `self.max_value if self.max_value else filtered_series.max()`: Python
truthiness, so a supplied bound of `0` falls back to the data. -/
def resolveBound (ov : Option ℚ) (dataB : F) : F :=
  match ov with
  | some q => if q ≠ 0 then F.fin q else dataB
  | Option.none => dataB

/-- The resolved `(min_metric, max_metric)` pair (source lines 135-145). -/
def resolveBounds (cfg : Config) (df : DataFrame) (primary : String) : F × F :=
  (resolveBound cfg.minValue (dataMin (finiteVals df primary)),
   resolveBound cfg.maxValue (dataMax (finiteVals df primary)))

/-- Stable insertion into a lexicographically sorted string list. -/
def insertStr (s : String) : List String → List String
  | [] => [s]
  | t :: ts => if s < t then s :: t :: ts else t :: insertStr s ts

/-- Python `sorted` on strings. -/
def sortStrs (l : List String) : List String := l.foldr insertStr []

/-- The color/annotation resolution at entry (source lines 74-96).  When
color is enabled together with a truthy annotation column and annotation
colormap, `colors_annotations` and `colors_annotations_mapping` are
assigned; with a palette the mapping is the sorted unique `str()` image of
the column, and reading a column absent from the dataframe raises
`KeyError`.  With a dict the mapping is the dict itself and, because
`colors_enabled` is a class whose `colormap` attribute was just set to the
main palette, `colors_annotations.colormap` is the main palette. -/
def annotResolve (cfg : Config) (df : DataFrame) :
    Except String (Option Colors × Option AnnotMapping) :=
  if cfg.color then
    if optStrTruthy cfg.annotColumn ∧ annotCmapTruthy cfg.colormapAnnot then
      match cfg.colormapAnnot, cfg.annotColumn with
      | some (.byPalette pal), some ac =>
        if ac ∈ df.columns then
          Except.ok (some (colorsEnabled pal),
            some (.byList (sortStrs (uniqueStrs df ac))))
        else Except.error ("KeyError: " ++ ac)
      | some (.byDict d), _ =>
        Except.ok (some (colorsEnabled cfg.colormap), some (.byDict d))
      | _, _ => Except.ok (Option.none, Option.none)
    else Except.ok (Option.none, Option.none)
  else Except.ok (Option.none, Option.none)

/-- The loop over sorted roots (source lines 152-153). -/
def renderRoots (ctx : Ctx) (fuel : ℕ) :
    List Node → List ℕ → Except String (String × List ℕ)
  | [], vis => Except.ok ("", vis)
  | r :: rs, vis =>
    match renderFrame ctx fuel r vis "" "" with
    | Except.error e => Except.error e
    | Except.ok (s, vis2) =>
      match renderRoots ctx fuel rs vis2 with
      | Except.error e => Except.error e
      | Except.ok (s2, vis3) => Except.ok (s ++ s2, vis3)

/-- UTF-8 encoding of one character. -/
def charUtf8 (c : Char) : List ℕ :=
  let n := c.toNat
  if n < 128 then [n]
  else if n < 2048 then [192 + n / 64, 128 + n % 64]
  else if n < 65536 then
    [224 + n / 4096, 128 + (n / 64) % 64, 128 + n % 64]
  else
    [240 + n / 262144, 128 + (n / 4096) % 64, 128 + (n / 64) % 64,
     128 + n % 64]

/-- `result.encode("utf-8")`. -/
def utf8Str (s : String) : List ℕ := (s.toList.map charUtf8).flatten

/-- The value returned by `render`: text as-is, or its UTF-8 bytes. -/
inductive RenderOut
  | txt (s : String)
  | bin (b : List ℕ)
deriving DecidableEq, Repr

/-- The `Ctx` assembled by `render` once all checks have passed. -/
def mkCtx (cfg : Config) (children : ℕ → List Node) (df : DataFrame)
    (primary : String) (second : Option String)
    (colorsAnnot : Option Colors) (annotMapping : Option AnnotMapping) :
    Ctx :=
  let (mn, mx) := resolveBounds cfg df primary
  { df := df, children := children, primary := primary,
    second := second, precision := cfg.precision,
    nameCol := cfg.nameColumn, expand := cfg.expandName,
    contextCol := cfg.contextColumn, depth := cfg.depth,
    highlight := cfg.highlightName, annotCol := cfg.annotColumn,
    cmapAnnot := cfg.colormapAnnot,
    colors := if cfg.color then colorsEnabled cfg.colormap
              else colorsDisabled,
    colorsAnnot := colorsAnnot, annotMapping := annotMapping,
    minMetric := mn, maxMetric := mx,
    lrArrows := if cfg.unicode then ("◀ ", "▶ ") else ("< ", "> "),
    unicode := cfg.unicode }

/-- The traversal and legend part of `render` (source lines 132-156), run
after the metric columns have been validated. -/
def renderTraverse (cfg : Config) (children : ℕ → List Node)
    (roots : List Node) (df : DataFrame) (fuel : ℕ) (pre : String)
    (primary : String) (second : Option String)
    (colorsAnnot : Option Colors) (annotMapping : Option AnnotMapping) :
    Except String String :=
  let ctx := mkCtx cfg children df primary second colorsAnnot annotMapping
  match renderRoots ctx fuel (sortByNid roots) [] with
  | Except.error e => Except.error e
  | Except.ok (body, _) =>
    Except.ok (pre ++ body ++
      if cfg.color = true then renderLegend ctx else "")

/-- The body of `render` after the `roots is None` check (source lines
58-156): resolve configuration, validate columns, compute bounds, traverse
the sorted roots and append the legend when color is enabled.  Returns the
composed text, before the final encode step. -/
def renderBody (cfg : Config) (children : ℕ → List Node) (roots : List Node)
    (df : DataFrame) (fuel : ℕ) (pre : String) : Except String String :=
  match annotResolve cfg df with
  | Except.error e => Except.error e
  | Except.ok (colorsAnnot, annotMapping) =>
    match resolveMetrics cfg.metricColumn with
    | Option.none => Except.error "AttributeError: primary_metric"
    | some (primary, second) =>
      if primary ∉ df.columns then Except.error (keyErrMsg primary)
      else
        match second with
        | some m =>
          if m ∉ df.columns then Except.error (keyErrMsg m)
          else renderTraverse cfg children roots df fuel pre primary
            (some m) colorsAnnot annotMapping
        | Option.none =>
          renderTraverse cfg children roots df fuel pre primary
            Option.none colorsAnnot annotMapping

/-- `render` (source lines 46-161).  A `None` root set returns the
empty-graph message as text without the encode step; otherwise the composed
text is returned as-is in unicode mode and UTF-8 encoded in non-unicode
mode. -/
def render (cfg : Config) (children : ℕ → List Node)
    (roots : Option (List Node)) (df : DataFrame) (fuel : ℕ) :
    Except String RenderOut :=
  let pre := if cfg.renderHeader then renderPreamble else ""
  match roots with
  | Option.none => Except.ok (RenderOut.txt (pre ++ "The graph is empty.\n\n"))
  | some rs =>
    match renderBody cfg children rs df fuel pre with
    | Except.error e => Except.error e
    | Except.ok result =>
      Except.ok (if cfg.unicode then RenderOut.txt result
                 else RenderOut.bin (utf8Str result))

/-! Concrete fixtures used to exercise the model. -/

/-- A baseline configuration: one metric column `"time"`, names from
`"name"`, no annotations, no colors, unicode text output, no header. -/
def baseCfg : Config :=
  { renderHeader := false
    metricColumn := .single "time"
    annotColumn := Option.none
    precision := 3
    nameColumn := "name"
    expandName := true
    contextColumn := ""
    rank := 0, thread := 0
    depth := 10
    highlightName := false
    colormap := []
    invertColormap := false
    colormapAnnot := Option.none
    minValue := Option.none, maxValue := Option.none
    unicode := true, color := false }

/-- The DAG of the shared-child scenario: root 0 with children 1 (`aa`) and
2 (`bb`); node 3 (`xv`) is a child of both 1 and 2; node 4 (`yy`) is the
child of 3. -/
def dagChildren : ℕ → List Node
  | 0 => [⟨1, 1⟩, ⟨2, 1⟩]
  | 1 => [⟨3, 2⟩]
  | 2 => [⟨3, 2⟩]
  | 3 => [⟨4, 3⟩]
  | _ => []

/-- The table for the shared-child scenario: each node's name is unique and
its metric is its id plus one. -/
def dagDf : DataFrame :=
  { columns := ["time", "name"]
    rows := [0, 1, 2, 3, 4]
    cell := fun r c =>
      if c = "name" then
        PyVal.pstr (["rr", "aa", "bb", "xv", "yy"].getD r "?")
      else PyVal.num (((r + 1 : ℕ) : ℤ) : ℚ) }

/-- The text rendered for the shared-child DAG. -/
def dagOut : String :=
  match render baseCfg dagChildren (some [⟨0, 0⟩]) dagDf 50 with
  | Except.ok (.txt s) => s
  | _ => ""

/-- A one-node context for witnesses: a single node 0 with metric 1 and
name `"f"`. -/
def oneCtx : Ctx :=
  { df := { columns := ["time", "name"], rows := [0],
            cell := fun _ c =>
              if c = "name" then PyVal.pstr "f" else PyVal.num 1 }
    children := fun _ => []
    primary := "time", second := Option.none, precision := 3
    nameCol := "name", expand := true, contextCol := ""
    depth := 10, highlight := false
    annotCol := Option.none, cmapAnnot := Option.none
    colors := colorsDisabled, colorsAnnot := Option.none
    annotMapping := Option.none
    minMetric := F.fin 1, maxMetric := F.fin 1
    lrArrows := ("< ", "> "), unicode := false }

/-! C1: behaviour of the visited set on a DAG. -/

theorem nodup_append_one {vis : List ℕ} {a : ℕ} (h : vis.Nodup)
    (ha : a ∉ vis) : (vis ++ [a]).Nodup := by
  simp [List.nodup_append, h, ha]

/-- The joint visited-set invariant of `renderFrame` and `renderKids`:
starting from a duplicate-free visited list, a successful run keeps the
list duplicate-free and only extends it; an already-visited node leaves the
list untouched (its children are not re-traversed), and an unvisited node
within the depth cutoff ends up in the list. -/
theorem visitedInv (n : ℕ) :
    (∀ (ctx : Ctx) (node : Node) (vis : List ℕ) (ind ci out : String)
        (vis' : List ℕ), vis.Nodup →
        renderFrame ctx n node vis ind ci = Except.ok (out, vis') →
        vis'.Nodup ∧ (∀ x ∈ vis, x ∈ vis') ∧
          (node.nid ∈ vis → vis' = vis) ∧
          (node.nid ∉ vis → node.depth < ctx.depth → node.nid ∈ vis')) ∧
    (∀ (ctx : Ctx) (cs : List Node) (ci : String) (vis : List ℕ)
        (out : String) (vis' : List ℕ), vis.Nodup →
        renderKids ctx n cs ci vis = Except.ok (out, vis') →
        vis'.Nodup ∧ (∀ x ∈ vis, x ∈ vis')) := by
  induction n with
  | zero =>
    constructor
    · intro ctx node vis ind ci out vis' _ h
      simp only [renderFrame] at h
      exact Except.noConfusion h
    · intro ctx cs ci vis out vis' hn h
      cases cs with
      | nil =>
        simp only [renderKids, Except.ok.injEq, Prod.mk.injEq] at h
        obtain ⟨-, rfl⟩ := h
        exact ⟨hn, fun x hx => hx⟩
      | cons c rest =>
        simp only [renderKids] at h
        exact Except.noConfusion h
  | succ n ih =>
    constructor
    · intro ctx node vis ind ci out vis' hn h
      simp only [renderFrame] at h
      by_cases hd : node.depth < ctx.depth
      · rw [if_pos hd] at h
        split at h
        · exact Except.noConfusion h
        · by_cases hm : node.nid ∈ vis
          · rw [if_pos hm] at h
            simp only [Except.ok.injEq, Prod.mk.injEq] at h
            obtain ⟨-, rfl⟩ := h
            exact ⟨hn, fun x hx => hx, fun _ => rfl,
              fun hcon => absurd hm hcon⟩
          · rw [if_neg hm] at h
            split at h
            · exact Except.noConfusion h
            · rename_i rest v heq2
              simp only [Except.ok.injEq, Prod.mk.injEq] at h
              obtain ⟨-, rfl⟩ := h
              have hnd2 : (vis ++ [node.nid]).Nodup := nodup_append_one hn hm
              obtain ⟨hv1, hv2⟩ := ih.2 ctx _ _ _ _ _ hnd2 heq2
              refine ⟨hv1, ?_, fun hcon => absurd hcon hm, ?_⟩
              · intro x hx
                exact hv2 x (List.mem_append_left _ hx)
              · intro _ _
                exact hv2 node.nid
                  (List.mem_append_right _ (List.mem_singleton.mpr rfl))
      · rw [if_neg hd] at h
        simp only [Except.ok.injEq, Prod.mk.injEq] at h
        obtain ⟨-, rfl⟩ := h
        exact ⟨hn, fun x hx => hx, fun _ => rfl, fun _ hcon => absurd hcon hd⟩
    · intro ctx cs ci vis out vis' hn h
      cases cs with
      | nil =>
        simp only [renderKids, Except.ok.injEq, Prod.mk.injEq] at h
        obtain ⟨-, rfl⟩ := h
        exact ⟨hn, fun x hx => hx⟩
      | cons c rest =>
        simp only [renderKids] at h
        split at h
        · exact Except.noConfusion h
        · rename_i s1 v1 heqf
          split at h
          · exact Except.noConfusion h
          · rename_i s2 v2 heqk
            simp only [Except.ok.injEq, Prod.mk.injEq] at h
            obtain ⟨-, rfl⟩ := h
            obtain ⟨hv1, hsub1⟩ := (ih.1 ctx c vis _ _ _ _ hn heqf).imp id
              (fun w => w.1)
            obtain ⟨hv2, hsub2⟩ := ih.2 ctx rest ci v1 _ _ hv1 heqk
            exact ⟨hv2, fun x hx => hsub2 x (hsub1 x hx)⟩

/-- C1: the claim is false as stated.  In the shared-child DAG (node 3,
named `xv`, is a child of both node 1 and node 2, all within the depth
cutoff), `xv`'s line appears twice in the output — once under each parent —
not exactly once; only the subtree below it (node 4, `yy`) appears once.
The source composes and emits the node's line unconditionally and guards
only the recursion into children with the visited check. -/
theorem C1_counterexample :
    countOccur "xv" dagOut = 2 ∧ countOccur "xv" dagOut ≠ 1 ∧
      countOccur "yy" dagOut = 1 := by
  refine ⟨by decide, ?_, by decide⟩
  intro h
  rw [show countOccur "xv" dagOut = 2 from by decide] at h
  exact absurd h (by decide)

/-- C1 (amended): a node's id is added to the visited set at most once —
the visited list stays duplicate-free and an already-visited node leaves it
unchanged, so the node's children are never re-traversed; an unvisited node
within the depth cutoff is recorded.  The node's own line, however, is
emitted on every arrival, so in the shared-child DAG `xv`'s line appears
once under each of its two parents (twice in total) while its subtree
(`yy`) appears exactly once. -/
theorem C1_amended_visited :
    (∀ (ctx : Ctx) (n : ℕ) (node : Node) (vis : List ℕ)
        (ind ci out : String) (vis' : List ℕ), vis.Nodup →
        renderFrame ctx n node vis ind ci = Except.ok (out, vis') →
        vis'.Nodup ∧ (node.nid ∈ vis → vis' = vis) ∧
          (node.nid ∉ vis → node.depth < ctx.depth → node.nid ∈ vis')) ∧
    countOccur "xv" dagOut = 2 ∧ countOccur "yy" dagOut = 1 := by
  refine ⟨?_, by decide, by decide⟩
  intro ctx n node vis ind ci out vis' hn h
  obtain ⟨h1, -, h3, h4⟩ := (visitedInv n).1 ctx node vis ind ci out vis' hn h
  exact ⟨h1, h3, h4⟩

/-- Witness for C1 (amended): the invariant applied to a concrete
successful one-node render starting from the empty visited list. -/
theorem C1_amended_visited_witness :
    (List.Nodup ([] : List ℕ) ∧
      renderFrame oneCtx 5 ⟨0, 0⟩ [] "" "" =
        Except.ok ("1.000 f\n", [0])) ∧
    (List.Nodup [0] ∧ ((0 : ℕ) ∉ ([] : List ℕ) → (0 : ℕ) < oneCtx.depth →
      (0 : ℕ) ∈ [0])) :=
  ⟨⟨by decide, by decide⟩,
    let inv := C1_amended_visited.1 oneCtx 5 ⟨0, 0⟩ [] "" "" "1.000 f\n" [0]
      (by decide) (by decide)
    ⟨inv.1, inv.2.2⟩⟩

/-! C2: short-circuit behaviour of the root set. -/

/-- A one-row table whose metric value is `5`. -/
def oneRowDf : DataFrame :=
  { columns := ["time", "name"]
    rows := [0]
    cell := fun _ c => if c = "name" then PyVal.pstr "f" else PyVal.num 5 }

/-- A six-color palette (contents irrelevant, only positions matter). -/
def sixColors : List String := ["c0", "c1", "c2", "c3", "c4", "c5"]

/-- Color-enabled configuration used to observe the metric bounds in the
legend. -/
def c2Cfg : Config := { baseCfg with color := true, colormap := sixColors }

/-- The text rendered for an *empty* (but not `None`) root set under
`c2Cfg`. -/
def c2Out : String :=
  match render c2Cfg dagChildren (some []) oneRowDf 10 with
  | Except.ok (.txt s) => s
  | _ => ""

/-- C2: the claim is false as stated.  For an empty (non-`None`) root set
the renderer does not short-circuit: the output is not the empty-graph
message, and the metric table *is* queried — its min/max (`5.00`) appear in
the legend. -/
theorem C2_counterexample :
    containsSubstr "The graph is empty" c2Out = false ∧
      containsSubstr "Min: 5.00" c2Out = true := by
  exact ⟨by decide, by decide⟩

/-- C2 (amended): only a `None` root set short-circuits, producing exactly
the empty-graph message (preceded by the preamble when headers are
enabled) without consulting the table; an empty-but-present root set
instead goes through column validation and bounds computation and renders
no node lines. -/
theorem C2_amended_none_short_circuits :
    (∀ (cfg : Config) (children : ℕ → List Node) (df : DataFrame)
        (fuel : ℕ),
        render cfg children Option.none df fuel =
          Except.ok (RenderOut.txt
            ((if cfg.renderHeader then renderPreamble else "") ++
              "The graph is empty.\n\n"))) ∧
    render c2Cfg dagChildren (some []) oneRowDf 10 ≠
      Except.ok (RenderOut.txt "The graph is empty.\n\n") := by
  constructor
  · intro cfg children df fuel
    rfl
  · decide

/-! C3: output encoding. -/

/-- Non-unicode configuration. -/
def c3Cfg : Config := { baseCfg with unicode := false }

/-- C3: the claim is false as stated.  With `unicode=False` and a `None`
root set, `render` returns the text as-is (the early return skips the
encode step), not the UTF-8 byte-encoding. -/
theorem C3_counterexample :
    render c3Cfg dagChildren Option.none oneRowDf 10 =
      Except.ok (RenderOut.txt "The graph is empty.\n\n") ∧
    RenderOut.txt "The graph is empty.\n\n" ≠
      RenderOut.bin (utf8Str "The graph is empty.\n\n") := by
  exact ⟨by decide, by decide⟩

/-- C3 (amended): for a *non-`None`* root set, a successful render returns
the composed text as-is under `unicode=True` and its UTF-8 byte-encoding
under `unicode=False`; a `None` root set returns text in both modes. -/
theorem C3_amended_encoding :
    (∀ (cfg : Config) (children : ℕ → List Node) (rs : List Node)
        (df : DataFrame) (fuel : ℕ) (out : RenderOut),
        render cfg children (some rs) df fuel = Except.ok out →
        (cfg.unicode = true → ∃ s, out = RenderOut.txt s) ∧
          (cfg.unicode = false → ∃ s, out = RenderOut.bin (utf8Str s))) ∧
    (∀ (cfg : Config) (children : ℕ → List Node) (df : DataFrame)
        (fuel : ℕ), ∃ s,
        render cfg children Option.none df fuel =
          Except.ok (RenderOut.txt s)) := by
  constructor
  · intro cfg children rs df fuel out h
    simp only [render] at h
    split at h
    · exact Except.noConfusion h
    · rename_i result heq
      simp only [Except.ok.injEq] at h
      constructor
      · intro hu
        rw [hu] at h
        exact ⟨result, h.symm ▸ by simp⟩
      · intro hu
        rw [hu] at h
        exact ⟨result, h.symm ▸ by simp⟩
  · intro cfg children df fuel
    exact ⟨(if cfg.renderHeader then renderPreamble else "") ++
      "The graph is empty.\n\n", rfl⟩

/-- Witness for C3 (amended): a successful non-unicode render of an empty
root set yields the UTF-8 bytes of the composed (empty) text. -/
theorem C3_amended_encoding_witness :
    (render c3Cfg dagChildren (some []) oneRowDf 5 =
        Except.ok (RenderOut.bin []) ∧ c3Cfg.unicode = false) ∧
    (∃ s, RenderOut.bin ([] : List ℕ) = RenderOut.bin (utf8Str s)) :=
  ⟨⟨by decide, rfl⟩,
    (C3_amended_encoding.1 c3Cfg dagChildren [] oneRowDf 5
      (RenderOut.bin []) (by decide)).2 rfl⟩

/-! C4: resolution of the normalization bounds. -/

/-- Configuration supplying `min_value = 0` with color enabled, so the
resolved bound is observable in the legend. -/
def c4Cfg : Config :=
  { baseCfg with color := true, colormap := sixColors, minValue := some 0 }

/-- The text rendered for the one-row table under `c4Cfg`. -/
def c4Out : String :=
  match render c4Cfg dagChildren (some []) oneRowDf 10 with
  | Except.ok (.txt s) => s
  | _ => ""

/-- C4: the claim is false as stated.  A supplied bound of `0` is *not*
honoured: `self.min_value if self.min_value else ...` tests Python
truthiness, so `min_value = 0` falls back to the data minimum (`5` here),
and the legend reports `Min: 5.00` instead of `Min: 0.00`. -/
theorem C4_counterexample :
    (resolveBounds c4Cfg oneRowDf "time").1 = F.fin 5 ∧
      F.fin (5 : ℚ) ≠ F.fin 0 ∧
      containsSubstr "Min: 5.00" c4Out = true := by
  exact ⟨by decide, by decide, by decide⟩

/-- C4 (amended): an absent bound is computed from the finite data; a
supplied *nonzero* bound is used verbatim; a supplied bound of `0` is
treated as absent (Python truthiness) and falls back to the data; the two
bounds are resolved independently, so overriding one leaves the other
data-computed. -/
theorem C4_amended_bounds (df : DataFrame) (p : String) (cfg : Config) :
    (cfg.minValue = Option.none →
      (resolveBounds cfg df p).1 = dataMin (finiteVals df p)) ∧
    (∀ q : ℚ, cfg.minValue = some q → q ≠ 0 →
      (resolveBounds cfg df p).1 = F.fin q) ∧
    (cfg.minValue = some 0 →
      (resolveBounds cfg df p).1 = dataMin (finiteVals df p)) ∧
    (cfg.maxValue = Option.none →
      (resolveBounds cfg df p).2 = dataMax (finiteVals df p)) ∧
    (∀ q : ℚ, cfg.maxValue = some q → q ≠ 0 →
      (resolveBounds cfg df p).2 = F.fin q) ∧
    (cfg.maxValue = some 0 →
      (resolveBounds cfg df p).2 = dataMax (finiteVals df p)) := by
  refine ⟨?_, ?_, ?_, ?_, ?_, ?_⟩ <;>
    simp only [resolveBounds, resolveBound]
  · intro h; rw [h]
  · intro q h hq; rw [h]; simp [hq]
  · intro h; rw [h]; simp
  · intro h; rw [h]
  · intro q h hq; rw [h]; simp [hq]
  · intro h; rw [h]; simp

/-- Witness for C4 (amended): with `min_value = 7` supplied and no
`max_value`, the resolved bounds over the one-row table are `(7, 5)` — the
min honoured, the max data-computed. -/
theorem C4_amended_bounds_witness :
    (({ baseCfg with minValue := some 7 } : Config).minValue = some 7 ∧
        ((7 : ℚ) ≠ 0) ∧
        ({ baseCfg with minValue := some 7 } : Config).maxValue =
          Option.none) ∧
    ((resolveBounds { baseCfg with minValue := some 7 } oneRowDf "time").1 =
        F.fin 7 ∧
      (resolveBounds { baseCfg with minValue := some 7 } oneRowDf "time").2 =
        dataMax (finiteVals oneRowDf "time")) :=
  ⟨⟨rfl, by decide, rfl⟩,
    ⟨(C4_amended_bounds oneRowDf "time" _).2.1 7 rfl (by decide),
      (C4_amended_bounds oneRowDf "time" _).2.2.2.1 rfl⟩⟩

/-! C5: the color bucketizer. -/

theorem mkRat_eq_div' (n : ℤ) (d : ℕ) : mkRat n d = (n : ℚ) / (d : ℚ) := by
  rw [Rat.mkRat_eq_divInt, Rat.divInt_eq_div]
  norm_num

theorem mkRat_9_10 : mkRat 9 10 = (9/10 : ℚ) := by
  rw [mkRat_eq_div']; norm_num

theorem mkRat_7_10 : mkRat 7 10 = (7/10 : ℚ) := by
  rw [mkRat_eq_div']; norm_num

theorem mkRat_1_2 : mkRat 1 2 = (1/2 : ℚ) := by
  rw [mkRat_eq_div']; norm_num

theorem mkRat_3_10 : mkRat 3 10 = (3/10 : ℚ) := by
  rw [mkRat_eq_div']; norm_num

theorem mkRat_1_10 : mkRat 1 10 = (1/10 : ℚ) := by
  rw [mkRat_eq_div']; norm_num

/-- The proportion as the spec words it: `(value - min)/range` for nonzero
`range = max - min`, and the value itself for zero range. -/
def specProportion (v mn mx : ℚ) : ℚ :=
  if mx - mn ≠ 0 then (v - mn) / (mx - mn) else v

/-- The bucket as the spec words it: `>0.9→0, >0.7→1, >0.5→2, >0.3→3,
>0.1→4, >=0→5`, and no bucket (the out-of-range accent) for a negative
proportion. -/
def specBucket (p : ℚ) : Option (Fin 6) :=
  if p > 9/10 then some 0
  else if p > 7/10 then some 1
  else if p > 1/2 then some 2
  else if p > 3/10 then some 3
  else if p > 1/10 then some 4
  else if p ≥ 0 then some 5
  else Option.none

/-- C5: for finite metric and bounds, `_ansi_color_for_metric` picks
exactly the palette entry of the spec's bucket of the spec's proportion
(or the `blue` out-of-range accent for a negative proportion); in
particular a proportion of exactly `0.9` lands in bucket 1, not 0. -/
theorem C5_bucketizer (ctx : Ctx) (v mn mx : ℚ)
    (hmin : ctx.minMetric = F.fin mn) (hmax : ctx.maxMetric = F.fin mx) :
    (ansiColorForMetric ctx (F.fin v) =
      match specBucket (specProportion v mn mx) with
      | some i => ctx.colors.colormap.getD i ""
      | Option.none => ctx.colors.blue) ∧
    (specProportion v mn mx = 9/10 →
      ansiColorForMetric ctx (F.fin v) = ctx.colors.colormap.getD 1 "") := by
  have hmain : ansiColorForMetric ctx (F.fin v) =
      match specBucket (specProportion v mn mx) with
      | some i => ctx.colors.colormap.getD i ""
      | Option.none => ctx.colors.blue := by
    by_cases hr : mx - mn = 0
    · have h1 : F.neZero (F.fin (mx - mn)) = false := by
        simp [F.neZero, hr]
      simp only [ansiColorForMetric, hmin, hmax, F.sub, qSub_eq, h1,
        Bool.false_eq_true, if_false, F.div, if_neg (one_ne_zero (α := ℚ)),
        qDiv_eq, div_one, F.gtQ, F.geQ, decide_eq_true_eq,
        mkRat_9_10, mkRat_7_10, mkRat_1_2, mkRat_3_10, mkRat_1_10,
        specProportion, if_neg (not_not_intro hr), specBucket]
      split_ifs <;> rfl
    · have h1 : F.neZero (F.fin (mx - mn)) = true := by
        simp [F.neZero, hr]
      simp only [ansiColorForMetric, hmin, hmax, F.sub, qSub_eq, h1,
        if_true, F.div, if_neg hr, qDiv_eq, F.gtQ, F.geQ,
        decide_eq_true_eq,
        mkRat_9_10, mkRat_7_10, mkRat_1_2, mkRat_3_10, mkRat_1_10,
        specProportion, if_pos hr, specBucket]
      split_ifs <;> rfl
  refine ⟨hmain, fun hp => ?_⟩
  rw [hmain, hp]
  norm_num [specBucket]

/-- Witness for C5: with bounds `0` and `1` and metric value `9/10`, the
proportion is exactly `0.9` and the disabled-colors palette entry of
bucket 1 is selected. -/
theorem C5_bucketizer_witness :
    (({ oneCtx with minMetric := F.fin 0, maxMetric := F.fin 1 } :
        Ctx).minMetric = F.fin 0 ∧
      ({ oneCtx with minMetric := F.fin 0, maxMetric := F.fin 1 } :
        Ctx).maxMetric = F.fin 1 ∧
      specProportion (9/10) 0 1 = 9/10) ∧
    ansiColorForMetric
        { oneCtx with minMetric := F.fin 0, maxMetric := F.fin 1 }
        (F.fin (9/10)) =
      ({ oneCtx with minMetric := F.fin 0, maxMetric := F.fin 1 } :
        Ctx).colors.colormap.getD 1 "" :=
  ⟨⟨rfl, rfl, by norm_num [specProportion]⟩,
    (C5_bucketizer
      { oneCtx with minMetric := F.fin 0, maxMetric := F.fin 1 }
      (9/10) 0 1 rfl rfl).2 (by norm_num [specProportion])⟩

/-! C6: tolerance of per-row anomalies. -/

/-- Temporal-pattern context whose annotation cell holds the unexpected
value `"weird"`. -/
def c6TempCtx : Ctx :=
  { oneCtx with
    df := { columns := ["time", "name", "t_pattern"], rows := [0],
            cell := fun _ c =>
              if c = "name" then PyVal.pstr "f"
              else if c = "t_pattern" then PyVal.pstr "weird"
              else PyVal.num 1 }
    annotCol := some "t_pattern" }

/-- C6: the claim is false as stated for temporal-pattern mode.  An
annotation value outside the fixed symbol table is *not* tolerated: the
dict lookup `self.temporal_symbols[pattern_metric]` raises `KeyError` and
the traversal aborts instead of emitting the line. -/
theorem C6_counterexample :
    composeLine c6TempCtx ⟨0, 0⟩ "" = Except.error "KeyError: weird" ∧
    renderFrame c6TempCtx 5 ⟨0, 0⟩ [] "" "" =
      Except.error "KeyError: weird" := by
  exact ⟨by decide, by decide⟩

/-- C6 (amended): outside temporal-pattern mode and without an annotation
colormap, per-row anomalies are tolerated: whatever the primary-metric cell
holds (any number, `nan` or `±inf`) and whatever value sits in the
annotation cell, the line is composed without error, the metric is
formatted as its literal representation (`formatFix`, i.e. `nan`/`inf` for
non-finite values) and the annotation as its bracketed `str()` image.  In
temporal-pattern mode, however, an annotation value outside the fixed
symbol table raises and aborts (see the counterexample). -/
theorem C6_amended_tolerance (ctx : Ctx) (node : Node) (ind : String)
    (ac nm : String) (f : F)
    (hmet : (ctx.df.cell node.nid ctx.primary).toF? = some f)
    (hsec : ctx.second = Option.none)
    (ha : ctx.annotCol = some ac)
    (hpat : containsSubstr "_pattern" ac = false)
    (hcm : annotCmapTruthy ctx.cmapAnnot = false)
    (hname : ctx.df.cell node.nid ctx.nameCol = PyVal.pstr nm)
    (hmark : "_missing_node" ∉ ctx.df.columns)
    (hctx : ctx.contextCol ∉ ctx.df.columns) :
    composeLine ctx node ind = Except.ok
      (ind ++
        (ansiColorForMetric ctx f ++ formatFix ctx.precision f ++
          ctx.colors.endc ++
          " [" ++ pyStr (ctx.df.cell node.nid ac) ++ "]") ++
        " " ++
        (ansiColorForName ctx (truncName ctx.expand nm) ++
          truncName ctx.expand nm ++ ctx.colors.endc) ++ "\n") := by
  simp only [composeLine, annotPart, toFErr, hmet, hsec, ha, hpat, hcm,
    hname, Bool.false_eq_true, if_false, hmark, hctx]
  simp [Bind.bind, Except.bind, String.append_assoc]

/-- Default-mode annotation context: the metric cell holds `nan` and the
annotation cell holds the float `7.0` (no colormap). -/
def c6DefCtx : Ctx :=
  { oneCtx with
    df := { columns := ["time", "name", "note"], rows := [0],
            cell := fun _ c =>
              if c = "name" then PyVal.pstr "f"
              else if c = "note" then PyVal.num 7
              else PyVal.nanv }
    annotCol := some "note" }

/-- Witness for C6 (amended): a `nan` metric together with a numeric (not
string) annotation value renders as `nan` plus the bracketed literal
`[7.0]`, with no error. -/
theorem C6_amended_tolerance_witness :
    ((c6DefCtx.df.cell 0 c6DefCtx.primary).toF? = some F.nan ∧
      c6DefCtx.second = Option.none ∧
      c6DefCtx.annotCol = some "note" ∧
      containsSubstr "_pattern" "note" = false ∧
      annotCmapTruthy c6DefCtx.cmapAnnot = false ∧
      c6DefCtx.df.cell 0 c6DefCtx.nameCol = PyVal.pstr "f" ∧
      "_missing_node" ∉ c6DefCtx.df.columns ∧
      c6DefCtx.contextCol ∉ c6DefCtx.df.columns) ∧
    composeLine c6DefCtx ⟨0, 0⟩ "" = Except.ok
      ("" ++
        (ansiColorForMetric c6DefCtx F.nan ++
          formatFix c6DefCtx.precision F.nan ++ c6DefCtx.colors.endc ++
          " [" ++ pyStr (c6DefCtx.df.cell 0 "note") ++ "]") ++
        " " ++
        (ansiColorForName c6DefCtx (truncName c6DefCtx.expand "f") ++
          truncName c6DefCtx.expand "f" ++ c6DefCtx.colors.endc) ++ "\n") :=
  ⟨⟨by decide, rfl, rfl, by decide, by decide, by decide, by decide,
    by decide⟩,
    C6_amended_tolerance c6DefCtx ⟨0, 0⟩ "" "note" "f" F.nan (by decide)
      rfl rfl (by decide) (by decide) (by decide) (by decide) (by decide)⟩

/-! C7: eager validation of the metric columns. -/

theorem isPrefixOf_append_self (l t : List Char) :
    l.isPrefixOf (l ++ t) = true := by
  induction l with
  | nil => simp [List.isPrefixOf]
  | cons c cs ih => simp [List.isPrefixOf, ih]

/-- A string occurs in any string that sandwiches it. -/
theorem containsSubstr_sandwich (a p b : String) :
    containsSubstr p (a ++ p ++ b) = true := by
  unfold containsSubstr
  simp only [String.toList, String.data_append]
  apply List.any_eq_true.mpr
  refine ⟨a.data.length, List.mem_range.mpr ?_, ?_⟩
  · simp only [List.length_append]
    omega
  · rw [List.append_assoc, List.drop_left]
    exact isPrefixOf_append_self _ _

/-- C7: with a non-`None` root set, a missing primary (or configured
secondary) metric column makes `render` fail with the `KeyError` message
naming that column, before any traversal output is produced (the error
value carries no partial output); the message contains the column name. -/
theorem C7_missing_column (cfg : Config) (children : ℕ → List Node)
    (rs : List Node) (df : DataFrame) (fuel : ℕ) (p : String)
    (s : Option String) (caOpt : Option Colors)
    (amOpt : Option AnnotMapping)
    (hA : annotResolve cfg df = Except.ok (caOpt, amOpt))
    (hM : resolveMetrics cfg.metricColumn = some (p, s)) :
    (p ∉ df.columns →
      render cfg children (some rs) df fuel =
        Except.error (keyErrMsg p)) ∧
    (∀ m, p ∈ df.columns → s = some m → m ∉ df.columns →
      render cfg children (some rs) df fuel =
        Except.error (keyErrMsg m)) ∧
    (∀ c, containsSubstr c (keyErrMsg c) = true) := by
  refine ⟨?_, ?_, ?_⟩
  · intro hp
    simp only [render, renderBody, hA, hM, if_pos hp]
  · intro m hp hs hm
    simp only [render, renderBody, hA, hM, hs, if_neg (not_not_intro hp),
      if_pos hm]
  · intro c
    exact containsSubstr_sandwich "metric_column=" c
      " does not exist in the dataframe, please select a valid column. See a list of the available metrics with GraphFrame.show_metric_columns()."

/-- Configuration naming a primary metric column that the table lacks. -/
def c7Cfg : Config := { baseCfg with metricColumn := .single "nope" }

/-- Witness for C7: rendering with the missing column `"nope"` fails with
the `KeyError` message naming it. -/
theorem C7_missing_column_witness :
    (annotResolve c7Cfg oneRowDf =
        Except.ok (Option.none, Option.none) ∧
      resolveMetrics c7Cfg.metricColumn = some ("nope", Option.none) ∧
      "nope" ∉ oneRowDf.columns) ∧
    render c7Cfg dagChildren (some [⟨0, 0⟩]) oneRowDf 10 =
      Except.error (keyErrMsg "nope") :=
  ⟨⟨by decide, rfl, by decide⟩,
    (C7_missing_column c7Cfg dagChildren [⟨0, 0⟩] oneRowDf 10 "nope"
      Option.none Option.none Option.none (by decide) rfl).1 (by decide)⟩

/-! C8: name truncation. -/

theorem drop_eq_reverse_take (l : List Char) (n : ℕ) (h : n ≤ l.length) :
    l.drop (l.length - n) = (l.reverse.take n).reverse := by
  have hk : (l.drop (l.length - n)).reverse.length = n := by
    rw [List.length_reverse, List.length_drop]
    omega
  have h1 : l.reverse =
      (l.drop (l.length - n)).reverse ++ (l.take (l.length - n)).reverse := by
    rw [← List.reverse_append, List.take_append_drop]
  rw [h1, List.take_left' hk, List.reverse_reverse]

/-- C8: with name expansion disabled, a display name longer than 39
characters collapses to its first 18 characters, `"..."`, and its *last*
18 characters; a name of 39 characters or fewer is rendered unchanged.
(`composeLine` applies exactly `truncName` to the name cell.) -/
theorem C8_truncation (s : String) :
    (pyLen s > 39 →
      truncName false s =
        strOfChars (s.toList.take 18) ++ "..." ++
          strOfChars ((s.toList.reverse.take 18).reverse)) ∧
    (pyLen s ≤ 39 → truncName false s = s) := by
  constructor
  · intro h
    have h18 : 18 ≤ s.toList.length := by
      unfold pyLen at h; omega
    have h' : s.toList.length > 39 := h
    simp only [truncName, eq_self_iff_true, if_true, pyTake, pyDrop, pyLen]
    rw [drop_eq_reverse_take s.toList 18 h18]
    exact if_pos h'
  · intro h
    simp only [truncName, eq_self_iff_true, if_true,
      if_neg (by omega : ¬pyLen s > 39)]

/-- A 50-character display name. -/
def c8Name : String := "abcdefghijklmnopqrstuvwxyzABCDEFGHIJKLMNOPQRSTUVWX"

/-- Witness for C8: the 50-character name collapses to first 18 + `"..."`
+ last 18. -/
theorem C8_truncation_witness :
    pyLen c8Name > 39 ∧
      truncName false c8Name =
        strOfChars (c8Name.toList.take 18) ++ "..." ++
          strOfChars ((c8Name.toList.reverse.take 18).reverse) :=
  ⟨by decide, (C8_truncation c8Name).1 (by decide)⟩

/-! C9: the legend's bucket bands. -/

/-- The six bands as the spec words them, with their palette indices, in
emission order. -/
def specBandsIdx : List (ℕ × ℚ × ℚ) :=
  [(0, 9/10, 1), (1, 7/10, 9/10), (2, 1/2, 7/10),
   (3, 3/10, 1/2), (4, 1/10, 3/10), (5, 0, 1/10)]

/-- Context with resolved bounds `0` and `10` and a six-color palette. -/
def legendDemoCtx : Ctx :=
  { oneCtx with
    minMetric := F.fin 0
    maxMetric := F.fin 10
    colors := colorsEnabled sixColors }

/-- C9: with color enabled the legend emits, between its header and its key
line, exactly six bucket bands in the order `(0.9,1.0), (0.7,0.9),
(0.5,0.7), (0.3,0.5), (0.1,0.3), (0.0,0.1)`, each prefixed by its palette
swatch and mapping its proportion endpoints back to metric-domain values
via `value = proportion*(max-min) + min` formatted to two decimals; for
resolved bounds `0` and `10` the top band renders `"9.00 - 10.00"`. -/
theorem C9_legend_bands (ctx : Ctx) (mn mx : ℚ)
    (hmin : ctx.minMetric = F.fin mn) (hmax : ctx.maxMetric = F.fin mx) :
    (renderLegend ctx =
      legendTitle ctx ++
        String.join (specBandsIdx.map (fun t =>
          ctx.colors.colormap.getD t.1 "" ++ "█ " ++ ctx.colors.endc ++
            qToFixed 2 (t.2.1 * (mx - mn) + mn) ++ " - " ++
            qToFixed 2 (t.2.2 * (mx - mn) + mn) ++ "\n")) ++
        legendTail ctx) ∧
    containsSubstr "9.00 - 10.00" (renderLegend legendDemoCtx) = true := by
  constructor
  · simp only [renderLegend, legendBands, renderLabel, hmin, hmax,
      F.sub, F.mul, F.add, qSub_eq, qMul_eq, qAdd_eq,
      mkRat_9_10, mkRat_7_10, mkRat_1_2, mkRat_3_10, mkRat_1_10,
      formatFix, specBandsIdx, List.map, String.join, List.foldl]
    simp [String.append_assoc]
  · decide

/-- Witness for C9: the band identity instantiated at resolved bounds
`(0, 10)`, where the top band is `"9.00 - 10.00"`. -/
theorem C9_legend_bands_witness :
    (legendDemoCtx.minMetric = F.fin 0 ∧
      legendDemoCtx.maxMetric = F.fin 10) ∧
    ((renderLegend legendDemoCtx =
      legendTitle legendDemoCtx ++
        String.join (specBandsIdx.map (fun t =>
          legendDemoCtx.colors.colormap.getD t.1 "" ++ "█ " ++
            legendDemoCtx.colors.endc ++
            qToFixed 2 (t.2.1 * (10 - 0) + 0) ++ " - " ++
            qToFixed 2 (t.2.2 * (10 - 0) + 0) ++ "\n")) ++
        legendTail legendDemoCtx) ∧
    containsSubstr "9.00 - 10.00" (renderLegend legendDemoCtx) = true) :=
  ⟨⟨rfl, rfl⟩, C9_legend_bands legendDemoCtx 0 10 rfl rfl⟩

/-! C10: the diff-marker decorator. -/

/-- C10: when the table carries a `_missing_node` column, markers `0`, `1`
and `2` append nothing, the left arrow and the right arrow respectively;
any other marker value leaves the decorator unassigned, and composing the
node's line — and with it `renderFrame` — fails with an unhandled error
instead of emitting the line. -/
theorem C10_marker (ctx : Ctx) (node : Node) (ind : String) (nm : String)
    (f : F) (v : PyVal)
    (hmet : (ctx.df.cell node.nid ctx.primary).toF? = some f)
    (hsec : ctx.second = Option.none)
    (ha : ctx.annotCol = Option.none)
    (hname : ctx.df.cell node.nid ctx.nameCol = PyVal.pstr nm)
    (hmc : "_missing_node" ∈ ctx.df.columns)
    (hv : ctx.df.cell node.nid "_missing_node" = v)
    (h0 : v.eqInt 0 = false) (h1 : v.eqInt 1 = false)
    (h2 : v.eqInt 2 = false) :
    (composeLine ctx node ind =
        Except.error "UnboundLocalError: lr_decorator") ∧
    (∀ (n : ℕ) (vis : List ℕ) (ci : String), node.depth < ctx.depth →
      renderFrame ctx (n + 1) node vis ind ci =
        Except.error "UnboundLocalError: lr_decorator") ∧
    lrDecorator ctx (PyVal.intv 0) = some "" ∧
    lrDecorator ctx (PyVal.intv 1) =
      some (" " ++ ctx.colors.left ++ ctx.lrArrows.1 ++ ctx.colors.endc) ∧
    lrDecorator ctx (PyVal.intv 2) =
      some (" " ++ ctx.colors.right ++ ctx.lrArrows.2 ++ ctx.colors.endc) := by
  have hcomp : composeLine ctx node ind =
      Except.error "UnboundLocalError: lr_decorator" := by
    simp only [composeLine, toFErr, hmet, hsec, ha, hname, if_pos hmc,
      hv, lrDecorator, h0, h1, h2, Bool.false_eq_true, if_false]
    simp [Bind.bind, Except.bind]
  refine ⟨hcomp, ?_, rfl, rfl, rfl⟩
  intro n vis ci hd
  simp only [renderFrame, if_pos hd, hcomp]

/-- Context whose `_missing_node` cell holds the out-of-range marker `3`. -/
def c10Ctx : Ctx :=
  { oneCtx with
    df := { columns := ["time", "name", "_missing_node"], rows := [0],
            cell := fun _ c =>
              if c = "name" then PyVal.pstr "f"
              else if c = "_missing_node" then PyVal.intv 3
              else PyVal.num 1 } }

/-- Witness for C10: with marker value `3` the line raises instead of
rendering. -/
theorem C10_marker_witness :
    ((c10Ctx.df.cell 0 c10Ctx.primary).toF? = some (F.fin 1) ∧
      c10Ctx.second = Option.none ∧
      c10Ctx.annotCol = Option.none ∧
      c10Ctx.df.cell 0 c10Ctx.nameCol = PyVal.pstr "f" ∧
      "_missing_node" ∈ c10Ctx.df.columns ∧
      (PyVal.intv 3).eqInt 0 = false ∧
      (PyVal.intv 3).eqInt 1 = false ∧
      (PyVal.intv 3).eqInt 2 = false) ∧
    composeLine c10Ctx ⟨0, 0⟩ "" =
      Except.error "UnboundLocalError: lr_decorator" :=
  ⟨⟨by decide, rfl, rfl, by decide, by decide, by decide, by decide,
    by decide⟩,
    (C10_marker c10Ctx ⟨0, 0⟩ "" "f" (F.fin 1) (PyVal.intv 3) (by decide)
      rfl rfl (by decide) (by decide) (by decide) (by decide) (by decide)
      (by decide)).1⟩

end Hatchet
